import Mathlib

/-!
Verification of the environment-driven debugger selector
(`deps/readies/paella/debug.py`).

The module body reads `PYDEBUG` (falling back to `BB`), optionally writes
the fallback value into the process environment, and binds the name `bb`
to one of three debugger breakpoint functions or to a no-op.  Imports may
fail with `ImportError`; only the `"1"` branch catches it.
-/

namespace Paella

/-- The process environment: a partial map from variable names to values. -/
abbrev Env := String → Option String

/-- `os.environ.get(k, '')`: read a variable, defaulting to the empty string. -/
def envGetD (env : Env) (k : String) : String :=
  (env k).getD ""

/-- `os.environ[k] = v`: write a variable. -/
def envSet (env : Env) (k v : String) : Env :=
  fun k' => if k' = k then some v else env k'

/-- Which of the three debugger libraries are importable in the hosting
environment (`pdb` ships with CPython but its import is still an import,
so it gets a flag like the others). -/
structure Avail where
  pudb : Bool
  ipdb : Bool
  pdb : Bool
deriving DecidableEq, Repr

/-- The callable the name `bb` can be bound to after a successful load. -/
inductive Binding : Type where
  | pudbSetTrace
  | ipdbSetTrace
  | pdbSetTrace
  | noop
deriving DecidableEq, Repr

/-- `from pudb import set_trace as bb`: succeeds iff the library is importable. -/
def importPudb (a : Avail) : Except Unit Binding :=
  if a.pudb then .ok .pudbSetTrace else .error ()

/-- `from ipdb import set_trace as bb`. -/
def importIpdb (a : Avail) : Except Unit Binding :=
  if a.ipdb then .ok .ipdbSetTrace else .error ()

/-- `from pdb import set_trace as bb`. -/
def importPdb (a : Avail) : Except Unit Binding :=
  if a.pdb then .ok .pdbSetTrace else .error ()

/-- Lines 5-9 of the source: resolve the selector string and perform the
`BB` → `PYDEBUG` copy.  Returns the resolved `pydebug` value together with
the (possibly updated) environment. -/
def resolveSelector (env : Env) : String × Env :=
  let pydebug := envGetD env "PYDEBUG"
  if pydebug = "" then
    let pydebug := envGetD env "BB"
    if pydebug = "" then (pydebug, env)
    else (pydebug, envSet env "PYDEBUG" pydebug)
  else (pydebug, env)

/-- Lines 10-26 of the source: the `if`/`elif` chain choosing the binding of
`bb`.  In the `"1"` branch an `ImportError` from `pudb` is caught and `ipdb`
is tried, an `ImportError` from `ipdb` is caught and `pdb` is tried; the
`pdb` import itself is unguarded.  The explicit `"pudb"`, `"pdb"`, `"ipdb"`
branches are unguarded.  An `.error` result is an uncaught `ImportError`
propagating out of the module load. -/
def selectBinding (pydebug : String) (a : Avail) : Except Unit Binding :=
  if pydebug = "1" then
    match importPudb a with
    | .ok b => .ok b
    | .error _ =>
      match importIpdb a with
      | .ok b => .ok b
      | .error _ => importPdb a
  else if pydebug = "pudb" then importPudb a
  else if pydebug = "pdb" then importPdb a
  else if pydebug = "ipdb" then importIpdb a
  else .ok .noop

/-- The whole module body: the environment after load, and either the
binding of `bb` or a propagated `ImportError`.  The environment write in
`resolveSelector` happens before any import, so it survives an import
failure. -/
def loadDebug (env : Env) (a : Avail) : Env × Except Unit Binding :=
  let r := resolveSelector env
  (r.2, selectBinding r.1 a)

/-- The resolved selector value (the final `pydebug`). -/
def resolvedSelector (env : Env) : String :=
  (resolveSelector env).1

/-- `def bb(): pass`: calling the no-op leaves any state unchanged and
returns Python `None` (modelled as `none`). -/
def noopCall (s : Env) : Env × Option Unit :=
  (s, none)

/-- An environment holding only `PYDEBUG = v`. -/
def envPY (v : String) : Env :=
  fun k => if k = "PYDEBUG" then some v else none

/-- An environment holding only `BB = "pdb"`. -/
def envBBpdb : Env :=
  fun k => if k = "BB" then some "pdb" else none

/-- The empty environment. -/
def envEmpty : Env :=
  fun _ => none

/-- An environment agreeing with `envPY "1"` at `PYDEBUG` and `BB` but
differing at another variable (`HOME`). -/
def envPYalt : Env :=
  fun k => if k = "HOME" then some "/root" else envPY "1" k

theorem resolveSelector_set (env : Env) (h : envGetD env "PYDEBUG" ≠ "") :
    resolveSelector env = (envGetD env "PYDEBUG", env) := by
  simp [resolveSelector, h]

theorem resolveSelector_bb (env : Env) (hp : envGetD env "PYDEBUG" = "")
    (hb : envGetD env "BB" ≠ "") :
    resolveSelector env = (envGetD env "BB", envSet env "PYDEBUG" (envGetD env "BB")) := by
  simp [resolveSelector, hp, hb]

theorem resolveSelector_none (env : Env) (hp : envGetD env "PYDEBUG" = "")
    (hb : envGetD env "BB" = "") :
    resolveSelector env = ("", env) := by
  simp [resolveSelector, hp, hb]

theorem loadDebug_fst (env : Env) (a : Avail) :
    (loadDebug env a).1 = (resolveSelector env).2 := rfl

theorem loadDebug_snd (env : Env) (a : Avail) :
    (loadDebug env a).2 = selectBinding (resolvedSelector env) a := rfl

theorem selectBinding_noop (s : String) (a : Avail)
    (h1 : s ≠ "1") (h2 : s ≠ "pudb") (h3 : s ≠ "pdb") (h4 : s ≠ "ipdb") :
    selectBinding s a = .ok .noop := by
  simp [selectBinding, h1, h2, h3, h4]

/-- C1: when the resolved selector value is `"1"`, `bb` is bound to the first
library's (pudb) breakpoint function if that library is importable; if not,
to the second library's (ipdb) breakpoint function; if that too is not
importable, to the third library's (pdb) breakpoint function — each fallback
step taken only when every preceding candidate is unavailable. -/
theorem bb_fallback_order_when_one (env : Env) (a : Avail)
    (h : resolvedSelector env = "1") :
    (a.pudb = true → (loadDebug env a).2 = .ok .pudbSetTrace) ∧
    (a.pudb = false → a.ipdb = true → (loadDebug env a).2 = .ok .ipdbSetTrace) ∧
    (a.pudb = false → a.ipdb = false → a.pdb = true →
      (loadDebug env a).2 = .ok .pdbSetTrace) := by
  refine ⟨fun hp => ?_, fun hp hi => ?_, fun hp hi hd => ?_⟩ <;>
    · rw [loadDebug_snd, h]
      simp [selectBinding, importPudb, importIpdb, importPdb, *]

theorem bb_fallback_order_when_one_witness :
    (loadDebug (envPY "1") ⟨false, true, true⟩).2 = .ok .ipdbSetTrace :=
  (bb_fallback_order_when_one (envPY "1") ⟨false, true, true⟩ (by decide)).2.1 rfl rfl

/-- C2: when `PYDEBUG` is unset or empty and `BB` is non-empty, after load
the environment variable `PYDEBUG` equals the value of `BB`, the selection
is made using that copied value, and in particular `BB = "pdb"` yields `bb`
bound to the third library's breakpoint function. -/
theorem bb_env_copy (env : Env) (a : Avail) (v : String)
    (hp : env "PYDEBUG" = none ∨ env "PYDEBUG" = some "")
    (hb : env "BB" = some v) (hv : v ≠ "") :
    (loadDebug env a).1 "PYDEBUG" = some v ∧
    resolvedSelector env = v ∧
    (v = "pdb" → a.pdb = true → (loadDebug env a).2 = .ok .pdbSetTrace) := by
  have hp' : envGetD env "PYDEBUG" = "" := by
    rcases hp with h | h <;> simp [envGetD, h]
  have hb' : envGetD env "BB" = v := by simp [envGetD, hb]
  have hr : resolveSelector env = (v, envSet env "PYDEBUG" v) := by
    rw [resolveSelector_bb env hp' (by rw [hb']; exact hv), hb']
  refine ⟨?_, ?_, fun hpdb hd => ?_⟩
  · rw [loadDebug_fst, hr]
    simp [envSet]
  · rw [resolvedSelector, hr]
  · rw [loadDebug_snd, resolvedSelector, hr]
    subst hpdb
    simp [selectBinding, importPdb, hd]

theorem bb_env_copy_witness :
    (loadDebug envBBpdb ⟨false, false, true⟩).1 "PYDEBUG" = some "pdb" ∧
    resolvedSelector envBBpdb = "pdb" ∧
    (loadDebug envBBpdb ⟨false, false, true⟩).2 = .ok .pdbSetTrace := by
  obtain ⟨h1, h2, h3⟩ :=
    bb_env_copy envBBpdb ⟨false, false, true⟩ "pdb" (Or.inl (by decide)) (by decide) (by decide)
  exact ⟨h1, h2, h3 rfl rfl⟩

/-- C3: for every resolved selector value outside the four recognized ones,
`bb` is bound to the no-op, and calling the no-op leaves any state unchanged
and returns nothing meaningful. -/
theorem bb_noop_unrecognized (env : Env) (a : Avail)
    (h1 : resolvedSelector env ≠ "1") (h2 : resolvedSelector env ≠ "pudb")
    (h3 : resolvedSelector env ≠ "pdb") (h4 : resolvedSelector env ≠ "ipdb") :
    (loadDebug env a).2 = .ok .noop ∧ ∀ s : Env, noopCall s = (s, none) := by
  refine ⟨?_, fun s => rfl⟩
  rw [loadDebug_snd]
  exact selectBinding_noop _ a h1 h2 h3 h4

theorem bb_noop_unrecognized_witness :
    (loadDebug envEmpty ⟨false, false, false⟩).2 = .ok .noop ∧
    noopCall envEmpty = (envEmpty, none) := by
  obtain ⟨h1, h2⟩ :=
    bb_noop_unrecognized envEmpty ⟨false, false, false⟩
      (by decide) (by decide) (by decide) (by decide)
  exact ⟨h1, h2 envEmpty⟩

/-- C4: when the resolved selector is `"pudb"` or `"ipdb"` and the named
library is not importable, the load fails with a propagated import error: no
fallback occurs and `bb` is not bound. -/
theorem bb_explicit_import_error (env : Env) (a : Avail) :
    (resolvedSelector env = "pudb" → a.pudb = false →
      (loadDebug env a).2 = .error ()) ∧
    (resolvedSelector env = "ipdb" → a.ipdb = false →
      (loadDebug env a).2 = .error ()) := by
  refine ⟨fun h ha => ?_, fun h ha => ?_⟩ <;>
    · rw [loadDebug_snd, h]
      simp [selectBinding, importPudb, importIpdb, ha]

theorem bb_explicit_import_error_witness :
    (loadDebug (envPY "pudb") ⟨false, true, true⟩).2 = .error () :=
  (bb_explicit_import_error (envPY "pudb") ⟨false, true, true⟩).1 (by decide) rfl

/-- C5: each recognized non-`"1"` selector binds `bb` directly with no
fallback: `"pudb"` to the first library's breakpoint function, `"ipdb"` to
the second's, `"pdb"` to the third's. -/
theorem bb_explicit_direct (env : Env) (a : Avail) :
    (resolvedSelector env = "pudb" → a.pudb = true →
      (loadDebug env a).2 = .ok .pudbSetTrace) ∧
    (resolvedSelector env = "ipdb" → a.ipdb = true →
      (loadDebug env a).2 = .ok .ipdbSetTrace) ∧
    (resolvedSelector env = "pdb" → a.pdb = true →
      (loadDebug env a).2 = .ok .pdbSetTrace) := by
  refine ⟨fun h ha => ?_, fun h ha => ?_, fun h ha => ?_⟩ <;>
    · rw [loadDebug_snd, h]
      simp [selectBinding, importPudb, importIpdb, importPdb, ha]

theorem bb_explicit_direct_witness :
    (loadDebug (envPY "ipdb") ⟨false, true, false⟩).2 = .ok .ipdbSetTrace :=
  (bb_explicit_direct (envPY "ipdb") ⟨false, true, false⟩).2.1 (by decide) rfl

/-- C6 counterexample: with `PYDEBUG = "1"` and none of the three libraries
importable, the load does NOT bind `bb` to the third library's breakpoint
function — the unguarded `from pdb import set_trace` raises and the import
error propagates, leaving `bb` unbound. -/
theorem bb_one_all_unavailable_fails :
    resolvedSelector (envPY "1") = "1" ∧
    (loadDebug (envPY "1") ⟨false, false, false⟩).2 = .error () := by
  constructor <;> rfl

/-- C6 (amended): when the resolved selector is `"1"` and the third library
(pdb) is importable — as it always is, shipping with the runtime — `bb` is
never left unbound: even if the first and second libraries are unavailable,
the load succeeds with some binding. -/
theorem bb_one_never_unbound (env : Env) (a : Avail)
    (h : resolvedSelector env = "1") (hd : a.pdb = true) :
    ∃ b : Binding, (loadDebug env a).2 = .ok b := by
  rw [loadDebug_snd, h]
  cases hp : a.pudb
  · cases hi : a.ipdb
    · exact ⟨.pdbSetTrace, by simp [selectBinding, importPudb, importIpdb, importPdb, hp, hi, hd]⟩
    · exact ⟨.ipdbSetTrace, by simp [selectBinding, importPudb, importIpdb, hp, hi]⟩
  · exact ⟨.pudbSetTrace, by simp [selectBinding, importPudb, hp]⟩

theorem bb_one_never_unbound_witness :
    ∃ b : Binding, (loadDebug (envPY "1") ⟨false, false, true⟩).2 = .ok b :=
  bb_one_never_unbound (envPY "1") ⟨false, false, true⟩ (by decide) rfl

/-- C7 counterexample: an initial environment in which `PYDEBUG` is unset
(hence "other than the four recognized values") but `BB = "pdb"`: the no-op
is NOT selected; `bb` is bound to the third library's breakpoint function
via the `BB` fallback. -/
theorem bb_unset_pydebug_not_noop :
    envBBpdb "PYDEBUG" = none ∧
    (loadDebug envBBpdb ⟨false, false, true⟩).2 = .ok .pdbSetTrace ∧
    (loadDebug envBBpdb ⟨false, false, true⟩).2 ≠ .ok .noop := by
  refine ⟨rfl, rfl, fun hcon => ?_⟩
  have hcon' : Except.ok Binding.pdbSetTrace = Except.ok Binding.noop := hcon
  exact Binding.noConfusion (Except.ok.inj hcon')

/-- C7 (amended): for every initial environment in which `PYDEBUG` holds a
value other than the four recognized ones, the no-op is selected — provided
that, when `PYDEBUG` is empty or unset, the `BB` fallback value is also not
one of the four recognized values. -/
theorem bb_noop_initial_env (env : Env) (a : Avail)
    (hp : envGetD env "PYDEBUG" ∉ (["1", "pudb", "pdb", "ipdb"] : List String))
    (hbb : envGetD env "PYDEBUG" = "" →
      envGetD env "BB" ∉ (["1", "pudb", "pdb", "ipdb"] : List String)) :
    (loadDebug env a).2 = .ok .noop := by
  rw [loadDebug_snd]
  by_cases h : envGetD env "PYDEBUG" = ""
  · by_cases hb : envGetD env "BB" = ""
    · have hres : resolvedSelector env = "" := by
        rw [resolvedSelector, resolveSelector_none env h hb]
      rw [hres]
      exact selectBinding_noop "" a (by decide) (by decide) (by decide) (by decide)
    · have hres : resolvedSelector env = envGetD env "BB" := by
        rw [resolvedSelector, resolveSelector_bb env h hb]
      rw [hres]
      have := hbb h
      simp only [List.mem_cons, List.not_mem_nil, or_false, not_or] at this
      exact selectBinding_noop _ a this.1 this.2.1 this.2.2.1 this.2.2.2
  · have hres : resolvedSelector env = envGetD env "PYDEBUG" := by
      rw [resolvedSelector, resolveSelector_set env h]
    rw [hres]
    simp only [List.mem_cons, List.not_mem_nil, or_false, not_or] at hp
    exact selectBinding_noop _ a hp.1 hp.2.1 hp.2.2.1 hp.2.2.2

theorem bb_noop_initial_env_witness :
    (loadDebug (envPY "xyz") ⟨true, true, true⟩).2 = .ok .noop :=
  bb_noop_initial_env (envPY "xyz") ⟨true, true, true⟩ (by decide) (by decide)

/-- C8: frame effect of the load — if `PYDEBUG` is already set to a
non-empty value, no environment variable is mutated at all; and in every
case, every environment variable other than `PYDEBUG` is left unchanged. -/
theorem load_frame_effect (env : Env) (a : Avail) :
    (∀ v, env "PYDEBUG" = some v → v ≠ "" →
      ∀ k, (loadDebug env a).1 k = env k) ∧
    (∀ k, k ≠ "PYDEBUG" → (loadDebug env a).1 k = env k) := by
  constructor
  · intro v hv hne k
    rw [loadDebug_fst, resolveSelector_set env (by simp [envGetD, hv, hne])]
  · intro k hk
    rw [loadDebug_fst]
    by_cases h : envGetD env "PYDEBUG" = ""
    · by_cases hb : envGetD env "BB" = ""
      · rw [resolveSelector_none env h hb]
      · rw [resolveSelector_bb env h hb]
        simp [envSet, hk]
    · rw [resolveSelector_set env h]

theorem load_frame_effect_witness :
    (loadDebug (envPY "xyz") ⟨false, false, true⟩).1 "BB" = envPY "xyz" "BB" ∧
    (loadDebug (envPY "xyz") ⟨false, false, true⟩).1 "PYDEBUG" =
      envPY "xyz" "PYDEBUG" :=
  ⟨(load_frame_effect (envPY "xyz") ⟨false, false, true⟩).2 "BB" (by decide),
   (load_frame_effect (envPY "xyz") ⟨false, false, true⟩).1 "xyz" rfl
     (by decide) "PYDEBUG"⟩

/-- C9: resolution is deterministic — two loads observing the same
environment state (the same values of `PYDEBUG` and `BB`, all other
variables arbitrary) and the same library availability resolve the same
selector and produce the same binding of `bb`; and a successful load binds
`bb` to exactly one callable. -/
theorem load_deterministic (env₁ env₂ : Env) (a : Avail)
    (hp : env₁ "PYDEBUG" = env₂ "PYDEBUG") (hb : env₁ "BB" = env₂ "BB") :
    resolvedSelector env₁ = resolvedSelector env₂ ∧
    (loadDebug env₁ a).2 = (loadDebug env₂ a).2 ∧
    (∀ b b', (loadDebug env₁ a).2 = .ok b → (loadDebug env₁ a).2 = .ok b' →
      b = b') := by
  have hg1 : envGetD env₁ "PYDEBUG" = envGetD env₂ "PYDEBUG" := by
    simp [envGetD, hp]
  have hg2 : envGetD env₁ "BB" = envGetD env₂ "BB" := by
    simp [envGetD, hb]
  have hsel : resolvedSelector env₁ = resolvedSelector env₂ := by
    by_cases h : envGetD env₂ "PYDEBUG" = ""
    · by_cases hbe : envGetD env₂ "BB" = ""
      · rw [resolvedSelector, resolvedSelector,
            resolveSelector_none env₁ (hg1.trans h) (hg2.trans hbe),
            resolveSelector_none env₂ h hbe]
      · rw [resolvedSelector, resolvedSelector,
            resolveSelector_bb env₁ (hg1.trans h) (by rw [hg2]; exact hbe),
            resolveSelector_bb env₂ h hbe]
        exact hg2
    · rw [resolvedSelector, resolvedSelector,
          resolveSelector_set env₁ (by rw [hg1]; exact h),
          resolveSelector_set env₂ h]
      exact hg1
  refine ⟨hsel, ?_, fun b b' h1 h2 => ?_⟩
  · rw [loadDebug_snd, loadDebug_snd, hsel]
  · rw [h1] at h2
    exact Except.ok.inj h2

theorem load_deterministic_witness :
    envPY "1" "HOME" ≠ envPYalt "HOME" ∧
    resolvedSelector (envPY "1") = resolvedSelector envPYalt ∧
    (loadDebug (envPY "1") ⟨true, false, false⟩).2 =
      (loadDebug envPYalt ⟨true, false, false⟩).2 := by
  obtain ⟨h1, h2, _⟩ :=
    load_deterministic (envPY "1") envPYalt ⟨true, false, false⟩
      (by decide) (by decide)
  exact ⟨by decide, h1, h2⟩

/-- C10: `PYDEBUG` is never written with an empty value — when `PYDEBUG` is
unset or empty and `BB` is also unset or empty, the load leaves the process
environment completely unchanged; in particular no `PYDEBUG` entry holding
the empty string is created. -/
theorem no_empty_pydebug_write (env : Env) (a : Avail)
    (hp : env "PYDEBUG" = none ∨ env "PYDEBUG" = some "")
    (hb : env "BB" = none ∨ env "BB" = some "") :
    ∀ k, (loadDebug env a).1 k = env k := by
  have hp' : envGetD env "PYDEBUG" = "" := by
    rcases hp with h | h <;> simp [envGetD, h]
  have hb' : envGetD env "BB" = "" := by
    rcases hb with h | h <;> simp [envGetD, h]
  intro k
  rw [loadDebug_fst, resolveSelector_none env hp' hb']

theorem no_empty_pydebug_write_witness :
    (loadDebug envEmpty ⟨false, false, true⟩).1 "PYDEBUG" = envEmpty "PYDEBUG" :=
  no_empty_pydebug_write envEmpty ⟨false, false, true⟩ (Or.inl rfl) (Or.inl rfl)
    "PYDEBUG"

end Paella
